import Mathlib

/-!
Verification of the SatWave photo-analysis core.

Shallow embedding of `src/satwave/core/domain/models.py`,
`src/satwave/core/services/photo_analysis_service.py` and
`src/satwave/adapters/storage/stub_repository.py`.

Python floats are modelled as exact rationals (`ℚ`); `uuid4()` identifiers and
`datetime.utcnow()` timestamps are modelled as values supplied by the caller
(the service never inspects them); the three injected collaborators
(photo storage, classifier) are modelled by a `Collaborators` record giving the
outcome of each call, and the repository by the in-memory stub repository's
state (a list of analyses in insertion order, like the Python dict's values).
Raised exceptions are modelled by an `Except` result, and the calls made to the
collaborators are recorded in a `Trace`.
-/

namespace SatWave

/-- `WasteType` enumeration from `models.py`. -/
inductive WasteType
  | plastic
  | metal
  | paper
  | glass
  | organic
  | textile
  | electronics
  | mixed
  | unknown
  | construction_waste
  | hazardous_waste
  | household_waste
  | mixed_waste
  | waste_separation_facilities
  deriving DecidableEq, Repr

/-- `AnalysisStatus` enumeration from `models.py`. -/
inductive AnalysisStatus
  | pending
  | processing
  | completed
  | failed
  deriving DecidableEq, Repr

/-- `Location` dataclass from `models.py` (the range invariant is enforced by
`mkLocation`, the model of the constructor with its `__post_init__` check). -/
structure Location where
  latitude : ℚ
  longitude : ℚ
  deriving DecidableEq, Repr

/-- `Location.__post_init__`: construction fails (Python `ValueError`) unless
`-90 <= latitude <= 90` and `-180 <= longitude <= 180`; latitude is checked
first. -/
def mkLocation (latitude longitude : ℚ) : Except String Location :=
  if ¬ (-90 ≤ latitude ∧ latitude ≤ 90) then
    Except.error s!"Invalid latitude: {latitude}"
  else if ¬ (-180 ≤ longitude ∧ longitude ≤ 180) then
    Except.error s!"Invalid longitude: {longitude}"
  else
    Except.ok { latitude := latitude, longitude := longitude }

/-- `WasteDetection` dataclass from `models.py`. -/
structure WasteDetection where
  waste_type : WasteType
  confidence : ℚ
  bounding_box : Option (ℚ × ℚ × ℚ × ℚ)
  deriving DecidableEq, Repr

/-- `PhotoAnalysis` dataclass from `models.py`. -/
structure PhotoAnalysis where
  id : ℕ
  photo_url : String
  location : Location
  detections : List WasteDetection
  status : AnalysisStatus
  created_at : ℕ
  processed_at : Option ℕ
  error_message : Option String
  deriving DecidableEq, Repr

/-- `PhotoAnalysis.create` from `models.py`: a fresh analysis in state
`pending`, with empty detections and no `processed_at` / `error_message`.
The `uuid4()` id and `utcnow()` timestamp are supplied by the caller. -/
def PhotoAnalysis.create (photo_url : String) (location : Location)
    (freshId : ℕ) (now : ℕ) : PhotoAnalysis :=
  { id := freshId
    photo_url := photo_url
    location := location
    detections := []
    status := AnalysisStatus.pending
    created_at := now
    processed_at := none
    error_message := none }

/-- The squared-degree distance computed by both `PhotoAnalysis.is_duplicate_location`
(`models.py`) and `StubAnalysisRepository.find_by_location` (`stub_repository.py`):
`lat_diff = abs(Δlat)`, `lon_diff = abs(Δlon)`, then `lat_diff ** 2 + lon_diff ** 2`.
The code then takes `(... ) ** 0.5 * 111000` as the distance in meters. -/
def sqDist (a b : Location) : ℚ :=
  |a.latitude - b.latitude| ^ 2 + |a.longitude - b.longitude| ^ 2

theorem sqDist_nonneg (a b : Location) : 0 ≤ sqDist a b := by
  have h1 : (0:ℚ) ≤ |a.latitude - b.latitude| ^ 2 := sq_nonneg _
  have h2 : (0:ℚ) ≤ |a.longitude - b.longitude| ^ 2 := sq_nonneg _
  unfold sqDist
  linarith

/-- The comparison `sqrt(lat_diff² + lon_diff²) * 111000 <= radius` performed by
`find_by_location` is decidable: it is equivalent to a rational inequality. -/
instance decDistLe (a b : Location) (r : ℚ) :
    Decidable ((Real.sqrt (sqDist a b) * 111000 : ℝ) ≤ (r : ℝ)) := by
  refine decidable_of_iff (0 ≤ r ∧ sqDist a b * 111000 ^ 2 ≤ r ^ 2) ?_
  have hs : (0:ℝ) ≤ ((sqDist a b : ℚ) : ℝ) := by exact_mod_cast sqDist_nonneg a b
  have hmul : Real.sqrt ((sqDist a b : ℚ)) * 111000
      = Real.sqrt (((sqDist a b : ℚ)) * 111000 ^ 2) := by
    rw [Real.sqrt_mul hs, Real.sqrt_sq (by norm_num : (0:ℝ) ≤ 111000)]
  rw [hmul, Real.sqrt_le_iff]
  constructor
  · rintro ⟨hr, h⟩
    exact ⟨by exact_mod_cast hr, by exact_mod_cast h⟩
  · rintro ⟨hr, h⟩
    exact ⟨by exact_mod_cast hr, by exact_mod_cast h⟩

/-- `StubAnalysisRepository.find_by_location`: scan the stored analyses in
insertion order and keep those with
`sqrt(lat_diff² + lon_diff²) * 111000 <= radius_meters`. -/
def find_by_location (storage : List PhotoAnalysis) (location : Location)
    (radius_meters : ℚ) : List PhotoAnalysis :=
  storage.filter fun analysis =>
    decide ((Real.sqrt (sqDist analysis.location location) * 111000 : ℝ) ≤ (radius_meters : ℝ))

/-- `StubAnalysisRepository.location_already_analyzed`: true iff
`find_by_location` at the threshold returns a non-empty list
(default threshold 50.0 meters, supplied explicitly here). -/
def location_already_analyzed (storage : List PhotoAnalysis) (location : Location)
    (threshold_meters : ℚ) : Bool :=
  decide (0 < (find_by_location storage location threshold_meters).length)

/-- `StubAnalysisRepository.save`: `self._storage[analysis.id] = analysis` on a
Python dict — overwrite the entry with the same id if present (keeping its
position in insertion order), otherwise append. -/
def saveAnalysis (storage : List PhotoAnalysis) (a : PhotoAnalysis) :
    List PhotoAnalysis :=
  if storage.any (fun x => x.id == a.id) then
    storage.map (fun x => if x.id == a.id then a else x)
  else
    storage ++ [a]

/-- `maxByConfAux best ds` is Python's `max(best :: ds, key=lambda d: d.confidence)`:
scan left to right keeping the running maximum, replacing it only on a strictly
larger confidence (so the first maximal element wins on ties). -/
def maxByConfAux (best : WasteDetection) : List WasteDetection → WasteDetection
  | [] => best
  | d :: ds => maxByConfAux (if best.confidence < d.confidence then d else best) ds

/-- `PhotoAnalysis.get_dominant_waste_type` from `models.py`: `unknown` when
`detections` is empty, else the waste type of
`max(self.detections, key=lambda d: d.confidence)`. -/
def PhotoAnalysis.get_dominant_waste_type (a : PhotoAnalysis) : WasteType :=
  match a.detections with
  | [] => WasteType.unknown
  | d :: ds => (maxByConfAux d ds).waste_type

/-- The Python exceptions raised by the core: the plain `ValueError` raised by
`Location.__post_init__`, and the four domain errors from `exceptions.py`. -/
inductive PyErr
  | valueError (msg : String)
  | invalidLocationError (msg : String)
  | duplicateLocationError (msg : String)
  | mlModelError (msg : String)
  | photoProcessingError (msg : String)
  deriving DecidableEq, Repr

instance decEqExcept {ε α : Type} [DecidableEq ε] [DecidableEq α] :
    DecidableEq (Except ε α) := fun x y =>
  match x, y with
  | Except.error a, Except.error b => decidable_of_iff (a = b) (by simp)
  | Except.ok a, Except.ok b => decidable_of_iff (a = b) (by simp)
  | Except.error _, Except.ok _ => isFalse (by simp)
  | Except.ok _, Except.error _ => isFalse (by simp)

/-- Outcomes of the injected collaborators for one `process_photo` call:
`photo_storage.save_photo` (url on success, exception message on failure),
`waste_classifier.is_ready`, and `waste_classifier.classify` (detection list on
success, exception message on failure). -/
structure Collaborators where
  savePhotoResult : Except String String
  classifierReady : Bool
  classifyResult : Except String (List WasteDetection)
  deriving DecidableEq, Repr

/-- Record of the collaborator calls made during one service call. -/
structure Trace where
  saveCalls : List PhotoAnalysis
  savePhotoCalls : ℕ
  isReadyCalls : ℕ
  classifyCalls : ℕ
  dupCheckCalls : ℕ
  deriving DecidableEq, Repr

/-- The trace of a call that touched no collaborator. -/
def Trace.none : Trace :=
  { saveCalls := [], savePhotoCalls := 0, isReadyCalls := 0, classifyCalls := 0,
    dupCheckCalls := 0 }

/-- Result of one `process_photo` call: the returned analysis or raised
exception, the collaborator-call trace, and the repository state afterwards. -/
structure ProcessResult where
  result : Except PyErr PhotoAnalysis
  trace : Trace
  repo : List PhotoAnalysis
  deriving DecidableEq, Repr

/-- Steps 3–6 of `PhotoAnalysisService.process_photo` (after location validation
and the duplicate check): create the analysis in `pending`, set `processing`,
then the `try` block — save the photo, check classifier readiness, classify —
with `except MLModelError` re-raised as-is, `except Exception` wrapped as
`PhotoProcessingError`, and the `finally` block saving the analysis exactly
once. `dupCalls` is 0 when the duplicate check was skipped, 1 otherwise. -/
def runPipeline (env : Collaborators) (repo : List PhotoAnalysis)
    (freshId now : ℕ) (location : Location) (dupCalls : ℕ) : ProcessResult :=
  let analysis0 : PhotoAnalysis :=
    { PhotoAnalysis.create "" location freshId now with
        status := AnalysisStatus.processing }
  match env.savePhotoResult with
  | Except.error e =>
      let analysisF := { analysis0 with
        status := AnalysisStatus.failed, error_message := some e }
      { result := Except.error (PyErr.photoProcessingError s!"Failed to process photo: {e}")
        trace := { saveCalls := [analysisF], savePhotoCalls := 1, isReadyCalls := 0,
                   classifyCalls := 0, dupCheckCalls := dupCalls }
        repo := saveAnalysis repo analysisF }
  | Except.ok photo_url =>
      let analysis1 := { analysis0 with photo_url := photo_url }
      if env.classifierReady = false then
        let analysisF := { analysis1 with
          status := AnalysisStatus.failed, error_message := some "ML model is not ready" }
        { result := Except.error (PyErr.mlModelError "ML model is not ready")
          trace := { saveCalls := [analysisF], savePhotoCalls := 1, isReadyCalls := 1,
                     classifyCalls := 0, dupCheckCalls := dupCalls }
          repo := saveAnalysis repo analysisF }
      else
        match env.classifyResult with
        | Except.error e =>
            let analysisF := { analysis1 with
              status := AnalysisStatus.failed, error_message := some e }
            { result := Except.error (PyErr.photoProcessingError s!"Failed to process photo: {e}")
              trace := { saveCalls := [analysisF], savePhotoCalls := 1, isReadyCalls := 1,
                         classifyCalls := 1, dupCheckCalls := dupCalls }
              repo := saveAnalysis repo analysisF }
        | Except.ok detections =>
            let analysisC := { analysis1 with
              detections := detections, status := AnalysisStatus.completed }
            { result := Except.ok analysisC
              trace := { saveCalls := [analysisC], savePhotoCalls := 1, isReadyCalls := 1,
                         classifyCalls := 1, dupCheckCalls := dupCalls }
              repo := saveAnalysis repo analysisC }

/-- `PhotoAnalysisService.process_photo`:
1. construct the `Location`, turning its `ValueError` into `InvalidLocationError`;
2. unless `skip_duplicate_check`, ask the repository `location_already_analyzed`
   (stub semantics, threshold 50.0) and raise `DuplicateLocationError` on a hit;
3.–6. run the storage/readiness/classification pipeline with unconditional
   final persistence (`runPipeline`). -/
def process_photo (env : Collaborators) (repo : List PhotoAnalysis)
    (freshId now : ℕ) (latitude longitude : ℚ)
    (skip_duplicate_check : Bool) : ProcessResult :=
  match mkLocation latitude longitude with
  | Except.error msg =>
      { result := Except.error (PyErr.invalidLocationError msg)
        trace := Trace.none
        repo := repo }
  | Except.ok location =>
      if skip_duplicate_check then
        runPipeline env repo freshId now location 0
      else if location_already_analyzed repo location 50 then
        { result := Except.error (PyErr.duplicateLocationError
            s!"Location ({latitude}, {longitude}) was already analyzed")
          trace := { Trace.none with dupCheckCalls := 1 }
          repo := repo }
      else
        runPipeline env repo freshId now location 1

/-- `PhotoAnalysisService.find_nearby_analyses`: construct the `Location`
(unguarded, so an out-of-range coordinate raises the constructor's plain
`ValueError`), then delegate to the repository's `find_by_location`.
The second component counts the repository calls made. -/
def find_nearby_analyses (repo : List PhotoAnalysis)
    (latitude longitude radius_meters : ℚ) :
    Except PyErr (List PhotoAnalysis) × ℕ :=
  match mkLocation latitude longitude with
  | Except.error msg => (Except.error (PyErr.valueError msg), 0)
  | Except.ok location => (Except.ok (find_by_location repo location radius_meters), 1)

/-! Concrete sample data used by counterexamples and witnesses. -/

/-- Raw classifier output of the spec's aggregation example:
`[{plastic,0.3},{plastic,0.9},{metal,0.5}]`. -/
def rawDetectionsC1 : List WasteDetection :=
  [{ waste_type := WasteType.plastic, confidence := 3/10, bounding_box := none },
   { waste_type := WasteType.plastic, confidence := 9/10, bounding_box := none },
   { waste_type := WasteType.metal, confidence := 1/2, bounding_box := none }]

/-- Collaborators for the aggregation counterexample: storage and classifier
succeed, the classifier returns the spec's three-element raw list. -/
def envC1 : Collaborators :=
  { savePhotoResult := Except.ok "http://photos/1"
    classifierReady := true
    classifyResult := Except.ok rawDetectionsC1 }

/-- The analysis `process_photo envC1 [] 0 0 55 37 false` completes with. -/
def analysisC1 : PhotoAnalysis :=
  { id := 0
    photo_url := "http://photos/1"
    location := { latitude := 55, longitude := 37 }
    detections := rawDetectionsC1
    status := AnalysisStatus.completed
    created_at := 0
    processed_at := none
    error_message := none }

/-- Collaborators whose classifier succeeds with an empty detection list. -/
def envC2 : Collaborators :=
  { savePhotoResult := Except.ok "http://photos/2"
    classifierReady := true
    classifyResult := Except.ok [] }

/-- The analysis `process_photo envC2 [] 0 0 55 37 false` completes with. -/
def analysisC2 : PhotoAnalysis :=
  { id := 0
    photo_url := "http://photos/2"
    location := { latitude := 55, longitude := 37 }
    detections := []
    status := AnalysisStatus.completed
    created_at := 0
    processed_at := none
    error_message := none }

/-- A two-element detection list with distinct confidences. -/
def detsW : List WasteDetection :=
  [{ waste_type := WasteType.glass, confidence := 0, bounding_box := none },
   { waste_type := WasteType.paper, confidence := 1, bounding_box := none }]

/-- Collaborators for which every step succeeds, classifying to `detsW`. -/
def envSuccess : Collaborators :=
  { savePhotoResult := Except.ok "http://photos/0"
    classifierReady := true
    classifyResult := Except.ok detsW }

/-- The analysis `process_photo envSuccess [] 0 0 55 37 false` completes with. -/
def analysisSuccessW : PhotoAnalysis :=
  { id := 0
    photo_url := "http://photos/0"
    location := { latitude := 55, longitude := 37 }
    detections := detsW
    status := AnalysisStatus.completed
    created_at := 0
    processed_at := none
    error_message := none }

/-- Collaborators whose classifier readiness check fails. -/
def envNotReady : Collaborators :=
  { savePhotoResult := Except.ok "http://photos/3"
    classifierReady := false
    classifyResult := Except.ok [] }

/-- An analysis with an empty detection list. -/
def analysisEmptyW : PhotoAnalysis :=
  { id := 7
    photo_url := ""
    location := { latitude := 0, longitude := 0 }
    detections := []
    status := AnalysisStatus.pending
    created_at := 0
    processed_at := none
    error_message := none }

/-! Helper lemmas. -/

theorem location_already_analyzed_iff (storage : List PhotoAnalysis)
    (location : Location) (threshold : ℚ) :
    location_already_analyzed storage location threshold = true ↔
      ∃ x ∈ storage, (Real.sqrt (sqDist x.location location) * 111000 : ℝ) ≤ (threshold : ℝ) := by
  unfold location_already_analyzed find_by_location
  rw [decide_eq_true_eq, List.length_pos_iff_exists_mem]
  constructor
  · rintro ⟨x, hx⟩
    rw [List.mem_filter, decide_eq_true_eq] at hx
    exact ⟨x, hx.1, hx.2⟩
  · rintro ⟨x, hx, hd⟩
    exact ⟨x, List.mem_filter.2 ⟨hx, by simpa using hd⟩⟩

theorem mem_saveAnalysis (storage : List PhotoAnalysis) (a : PhotoAnalysis) :
    a ∈ saveAnalysis storage a := by
  unfold saveAnalysis
  split
  · rename_i h
    rcases List.any_eq_true.1 h with ⟨x, hx, hid⟩
    exact List.mem_map.2 ⟨x, hx, by simp [hid]⟩
  · simp

theorem mkLocation_of_valid {lat lon : ℚ}
    (h : (-90 ≤ lat ∧ lat ≤ 90) ∧ (-180 ≤ lon ∧ lon ≤ 180)) :
    mkLocation lat lon = Except.ok { latitude := lat, longitude := lon } := by
  unfold mkLocation
  rw [if_neg (by simpa using h.1), if_neg (by simpa using h.2)]

theorem mkLocation_of_invalid {lat lon : ℚ}
    (h : ¬ ((-90 ≤ lat ∧ lat ≤ 90) ∧ (-180 ≤ lon ∧ lon ≤ 180))) :
    ∃ m, mkLocation lat lon = Except.error m := by
  unfold mkLocation
  by_cases h1 : -90 ≤ lat ∧ lat ≤ 90
  · have h2 : ¬ (-180 ≤ lon ∧ lon ≤ 180) := fun h2 => h ⟨h1, h2⟩
    rw [if_neg (by simpa using h1), if_pos (by simpa using h2)]
    exact ⟨_, rfl⟩
  · rw [if_pos (by simpa using h1)]
    exact ⟨_, rfl⟩

theorem mkLocation_ok_elim {lat lon : ℚ} {loc : Location}
    (h : mkLocation lat lon = Except.ok loc) :
    ((-90 ≤ lat ∧ lat ≤ 90) ∧ (-180 ≤ lon ∧ lon ≤ 180)) ∧
      loc = { latitude := lat, longitude := lon } := by
  by_cases h1 : -90 ≤ lat ∧ lat ≤ 90
  · by_cases h2 : -180 ≤ lon ∧ lon ≤ 180
    · refine ⟨⟨h1, h2⟩, ?_⟩
      rw [mkLocation_of_valid ⟨h1, h2⟩] at h
      exact (Except.ok.inj h).symm
    · rw [mkLocation, if_neg (by simpa using h1), if_pos (by simpa using h2)] at h
      exact absurd h (by simp)
  · rw [mkLocation, if_pos (by simpa using h1)] at h
    exact absurd h (by simp)

theorem sqDist_self (a : Location) : sqDist a a = 0 := by
  simp [sqDist]

theorem saveAnalysis_fresh (storage : List PhotoAnalysis) (a : PhotoAnalysis)
    (h : ∀ x ∈ storage, x.id ≠ a.id) : saveAnalysis storage a = storage ++ [a] := by
  unfold saveAnalysis
  rw [if_neg]
  intro hc
  rcases List.any_eq_true.1 hc with ⟨x, hx, hid⟩
  exact h x hx (by simpa using hid)

/-- Case analysis of the storage/readiness/classification pipeline: it always
records exactly one repository save, of an analysis carrying the given id,
location and creation time with `processed_at` still unset, and the analysis is
either completed (with the classifier's detections stored verbatim) and
returned, or failed with the error message recorded and the matching exception
raised. -/
theorem runPipeline_spec (env : Collaborators) (repo : List PhotoAnalysis)
    (freshId now : ℕ) (loc : Location) (dupCalls : ℕ) :
    ∃ a, (runPipeline env repo freshId now loc dupCalls).trace.saveCalls = [a] ∧
      (runPipeline env repo freshId now loc dupCalls).repo = saveAnalysis repo a ∧
      (runPipeline env repo freshId now loc dupCalls).trace.dupCheckCalls = dupCalls ∧
      a.id = freshId ∧ a.location = loc ∧ a.created_at = now ∧ a.processed_at = none ∧
      (((runPipeline env repo freshId now loc dupCalls).result = Except.ok a ∧
          a.status = AnalysisStatus.completed ∧
          ∃ url dets, env.savePhotoResult = Except.ok url ∧ env.classifierReady = true ∧
            env.classifyResult = Except.ok dets ∧ a.photo_url = url ∧ a.detections = dets)
        ∨ (a.status = AnalysisStatus.failed ∧ ∃ m, a.error_message = some m ∧
            ((runPipeline env repo freshId now loc dupCalls).result
                = Except.error (PyErr.mlModelError m) ∨
             (runPipeline env repo freshId now loc dupCalls).result
                = Except.error (PyErr.photoProcessingError s!"Failed to process photo: {m}")))) := by
  rcases hs : env.savePhotoResult with e | url
  · simp only [runPipeline, hs]
    exact ⟨_, rfl, rfl, by trivial, by trivial, by trivial, by trivial, by trivial,
      Or.inr ⟨by trivial, e, by trivial, Or.inr (by trivial)⟩⟩
  · rcases hr : env.classifierReady with _ | _
    · simp only [runPipeline, hs, hr]
      exact ⟨_, rfl, rfl, by trivial, by trivial, by trivial, by trivial, by trivial,
        Or.inr ⟨by trivial, "ML model is not ready", by trivial, Or.inl (by trivial)⟩⟩
    · rcases hc : env.classifyResult with e | dets
      · simp only [runPipeline, hs, hr, hc]
        exact ⟨_, rfl, rfl, by trivial, by trivial, by trivial, by trivial, by trivial,
          Or.inr ⟨by trivial, e, by trivial, Or.inr (by trivial)⟩⟩
      · simp only [runPipeline, hs, hr, hc]
        exact ⟨_, rfl, rfl, by trivial, by trivial, by trivial, by trivial, by trivial,
          Or.inl ⟨by trivial, by trivial, url, dets, by trivial, by trivial, by trivial,
            by trivial, by trivial⟩⟩

/-- After a valid location and a passed (or skipped) duplicate check,
`process_photo` is the pipeline. -/
theorem process_photo_pipeline (env : Collaborators) (repo : List PhotoAnalysis)
    (freshId now : ℕ) (lat lon : ℚ) (skip : Bool) (loc : Location)
    (hloc : mkLocation lat lon = Except.ok loc)
    (hdup : skip = true ∨ location_already_analyzed repo loc 50 = false) :
    process_photo env repo freshId now lat lon skip
      = runPipeline env repo freshId now loc (if skip then 0 else 1) := by
  unfold process_photo
  rw [hloc]
  cases hskip : skip with
  | true => simp
  | false =>
      have h : location_already_analyzed repo loc 50 = false := by
        rcases hdup with h | h
        · rw [hskip] at h
          exact absurd h (by simp)
        · exact h
      simp [h]

/-- Characterization of Python's first-maximum scan `maxByConfAux`: the result
splits `best :: ds` as `l1 ++ m :: l2` where `m` is the result, every element
strictly before `m` has strictly smaller confidence, and `m`'s confidence is
maximal over the whole list. -/
theorem maxByConfAux_spec (ds : List WasteDetection) (best : WasteDetection) :
    ∃ l1 m l2, best :: ds = l1 ++ m :: l2 ∧ maxByConfAux best ds = m ∧
      (∀ x ∈ l1, x.confidence < m.confidence) ∧
      (∀ x ∈ best :: ds, x.confidence ≤ m.confidence) := by
  induction ds generalizing best with
  | nil =>
      exact ⟨[], best, [], rfl, rfl, by simp, by simp⟩
  | cons d ds ih =>
      by_cases hbd : best.confidence < d.confidence
      · rcases ih d with ⟨l1, m, l2, hsplit, heq, hstrict, hle⟩
        have hdm : d.confidence ≤ m.confidence := hle d (List.mem_cons_self d ds)
        refine ⟨best :: l1, m, l2, by rw [List.cons_append, ← hsplit], ?_, ?_, ?_⟩
        · simpa [maxByConfAux, if_pos hbd] using heq
        · intro x hx
          rcases List.mem_cons.1 hx with hx | hx
          · exact hx ▸ lt_of_lt_of_le hbd hdm
          · exact hstrict x hx
        · intro x hx
          rcases List.mem_cons.1 hx with hx | hx
          · exact hx ▸ le_of_lt (lt_of_lt_of_le hbd hdm)
          · exact hle x hx
      · rcases ih best with ⟨l1, m, l2, hsplit, heq, hstrict, hle⟩
        have heq' : maxByConfAux best (d :: ds) = m := by
          simpa [maxByConfAux, if_neg hbd] using heq
        have hdb : d.confidence ≤ best.confidence := le_of_not_lt hbd
        cases l1 with
        | nil =>
            have hm : best = m := by simpa using congrArg (fun l => l.head?) hsplit
            have hl2 : ds = l2 := by simpa using congrArg (fun l => l.tail) hsplit
            refine ⟨[], m, d :: ds, by simp [← hm], heq', by simp, ?_⟩
            intro x hx
            rcases List.mem_cons.1 hx with hx | hx
            · exact hx ▸ hle best (List.mem_cons_self best ds)
            · rcases List.mem_cons.1 hx with hx | hx
              · exact hx ▸ le_trans hdb (hm ▸ le_rfl)
              · exact hle x (List.mem_cons_of_mem best hx)
        | cons b l1' =>
            have hb : best = b := by simpa using congrArg (fun l => l.head?) hsplit
            have hds : ds = l1' ++ m :: l2 := by
              simpa using congrArg (fun l => l.tail) hsplit
            have hbm : best.confidence < m.confidence :=
              hb ▸ hstrict b (List.mem_cons_self b l1')
            refine ⟨best :: d :: l1', m, l2, by rw [List.cons_append, List.cons_append, ← hds], heq', ?_, ?_⟩
            · intro x hx
              rcases List.mem_cons.1 hx with hx | hx
              · exact hx ▸ hbm
              · rcases List.mem_cons.1 hx with hx | hx
                · exact hx ▸ lt_of_le_of_lt hdb hbm
                · exact hstrict x (hb ▸ List.mem_cons_of_mem b hx)
            · intro x hx
              rcases List.mem_cons.1 hx with hx | hx
              · exact hx ▸ hle best (List.mem_cons_self best ds)
              · rcases List.mem_cons.1 hx with hx | hx
                · exact hx ▸ le_trans hdb (le_of_lt hbm)
                · exact hle x (List.mem_cons_of_mem best hx)

/-! Claim theorems. -/

/-- C7: the distance used by duplicate detection (`find_by_location`'s filter)
is `sqrt(Δlat² + Δlon²) * 111000` on raw degree differences (the equirectangular
approximation — the absolute values taken by the code vanish under squaring);
consequently the distance from any point to itself is `0` and the distance is
symmetric in its two arguments. -/
theorem C7_distance_formula :
    (∀ a b : Location,
      (Real.sqrt (sqDist a b) * 111000 : ℝ)
        = Real.sqrt (((a.latitude : ℝ) - (b.latitude : ℝ)) ^ 2
            + ((a.longitude : ℝ) - (b.longitude : ℝ)) ^ 2) * 111000)
    ∧ (∀ a : Location, (Real.sqrt (sqDist a a) * 111000 : ℝ) = 0)
    ∧ (∀ a b : Location,
        (Real.sqrt (sqDist a b) * 111000 : ℝ) = Real.sqrt (sqDist b a) * 111000)
    ∧ (∀ (storage : List PhotoAnalysis) (loc : Location) (r : ℚ),
        find_by_location storage loc r
          = storage.filter fun x =>
              decide ((Real.sqrt (sqDist x.location loc) * 111000 : ℝ) ≤ (r : ℝ))) := by
  have hcast : ∀ a b : Location,
      ((sqDist a b : ℚ) : ℝ)
        = ((a.latitude : ℝ) - (b.latitude : ℝ)) ^ 2
            + ((a.longitude : ℝ) - (b.longitude : ℝ)) ^ 2 := by
    intro a b
    unfold sqDist
    push_cast
    rw [sq_abs, sq_abs]
  refine ⟨fun a b => by rw [hcast], fun a => ?_, fun a b => ?_, fun _ _ _ => rfl⟩
  · rw [hcast]
    simp
  · rw [hcast, hcast]
    ring_nf

/-- C8: the dominant-category derivation `get_dominant_waste_type` returns
`unknown` on an empty detection list, and otherwise the waste type of a
maximum-confidence detection, ties resolved to the first such detection in list
order (every detection strictly before the chosen one has strictly smaller
confidence). -/
theorem C8_dominant_category (a : PhotoAnalysis) :
    (a.detections = [] → a.get_dominant_waste_type = WasteType.unknown) ∧
    (a.detections ≠ [] → ∃ l1 m l2, a.detections = l1 ++ m :: l2 ∧
      a.get_dominant_waste_type = m.waste_type ∧
      (∀ x ∈ a.detections, x.confidence ≤ m.confidence) ∧
      (∀ x ∈ l1, x.confidence < m.confidence)) := by
  constructor
  · intro h
    unfold PhotoAnalysis.get_dominant_waste_type
    rw [h]
  · intro h
    rcases hd : a.detections with _ | ⟨d, ds⟩
    · exact absurd hd h
    · rcases maxByConfAux_spec ds d with ⟨l1, m, l2, hsplit, heq, hstrict, hle⟩
      refine ⟨l1, m, l2, hd ▸ hsplit, ?_, ?_, hstrict⟩
      · unfold PhotoAnalysis.get_dominant_waste_type
        rw [hd]
        show (maxByConfAux d ds).waste_type = m.waste_type
        rw [heq]
      · intro x hx
        exact hle x (hd ▸ hx)

/-- C3: once `process_photo` passes location validation and the duplicate check
(or the check is skipped), the repository's save is invoked exactly once, with
the analysis in its final state: completed and returned on success, failed with
the error message recorded when `MLModelError` or any other
storage/classification failure is raised. -/
theorem C3_persist_exactly_once (env : Collaborators) (repo : List PhotoAnalysis)
    (freshId now : ℕ) (lat lon : ℚ) (skip : Bool) (loc : Location)
    (hloc : mkLocation lat lon = Except.ok loc)
    (hdup : skip = true ∨ location_already_analyzed repo loc 50 = false) :
    ∃ a, (process_photo env repo freshId now lat lon skip).trace.saveCalls = [a] ∧
      (process_photo env repo freshId now lat lon skip).repo = saveAnalysis repo a ∧
      (((process_photo env repo freshId now lat lon skip).result = Except.ok a ∧
          a.status = AnalysisStatus.completed) ∨
        (a.status = AnalysisStatus.failed ∧ ∃ m, a.error_message = some m ∧
          ((process_photo env repo freshId now lat lon skip).result
              = Except.error (PyErr.mlModelError m) ∨
           (process_photo env repo freshId now lat lon skip).result
              = Except.error (PyErr.photoProcessingError s!"Failed to process photo: {m}")))) := by
  rw [process_photo_pipeline env repo freshId now lat lon skip loc hloc hdup]
  rcases runPipeline_spec env repo freshId now loc (if skip then 0 else 1) with
    ⟨a, h1, h2, _, _, _, _, _, hcase⟩
  refine ⟨a, h1, h2, ?_⟩
  rcases hcase with ⟨hres, hst, _⟩ | ⟨hst, m, hmsg, hres⟩
  · exact Or.inl ⟨hres, hst⟩
  · exact Or.inr ⟨hst, m, hmsg, hres⟩

/-- Witness for C3: the successful concrete run at (55, 37). -/
theorem C3_persist_exactly_once_witness :
    ∃ a, (process_photo envSuccess [] 0 0 55 37 false).trace.saveCalls = [a] ∧
      (process_photo envSuccess [] 0 0 55 37 false).repo = saveAnalysis [] a ∧
      (((process_photo envSuccess [] 0 0 55 37 false).result = Except.ok a ∧
          a.status = AnalysisStatus.completed) ∨
        (a.status = AnalysisStatus.failed ∧ ∃ m, a.error_message = some m ∧
          ((process_photo envSuccess [] 0 0 55 37 false).result
              = Except.error (PyErr.mlModelError m) ∨
           (process_photo envSuccess [] 0 0 55 37 false).result
              = Except.error (PyErr.photoProcessingError s!"Failed to process photo: {m}")))) :=
  C3_persist_exactly_once envSuccess [] 0 0 55 37 false
    { latitude := 55, longitude := 37 } rfl (Or.inr rfl)

/-- C9: every analysis produced by `process_photo` — persisted or returned —
has `processed_at = none`: no core operation ever sets the timestamp. -/
theorem C9_processed_at_never_set (env : Collaborators) (repo : List PhotoAnalysis)
    (freshId now : ℕ) (lat lon : ℚ) (skip : Bool) :
    (∀ a ∈ (process_photo env repo freshId now lat lon skip).trace.saveCalls,
        a.processed_at = none) ∧
    (∀ a, (process_photo env repo freshId now lat lon skip).result = Except.ok a →
        a.processed_at = none) := by
  rcases hml : mkLocation lat lon with m | loc
  · constructor
    · intro a ha
      simp only [process_photo, hml, Trace.none] at ha
      simp at ha
    · intro a ha
      simp only [process_photo, hml] at ha
      exact absurd ha (by simp)
  · by_cases hdup : skip = true ∨ location_already_analyzed repo loc 50 = false
    · rw [process_photo_pipeline env repo freshId now lat lon skip loc hml hdup]
      rcases runPipeline_spec env repo freshId now loc (if skip then 0 else 1) with
        ⟨a, h1, _, _, _, _, _, hpn, hcase⟩
      constructor
      · intro a' ha'
        rw [h1] at ha'
        obtain rfl := List.mem_singleton.1 ha'
        exact hpn
      · intro a' ha'
        rcases hcase with ⟨hres, _, _⟩ | ⟨_, m, _, hres | hres⟩
        · rw [hres] at ha'
          obtain rfl := Except.ok.inj ha'
          exact hpn
        · rw [hres] at ha'
          exact absurd ha' (by simp)
        · rw [hres] at ha'
          exact absurd ha' (by simp)
    · push_neg at hdup
      have hskip : skip = false := by
        rcases hdup with ⟨h1, _⟩
        revert h1
        cases skip <;> simp
      have hdup2 : location_already_analyzed repo loc 50 = true := by
        rcases hdup with ⟨_, h2⟩
        revert h2
        cases location_already_analyzed repo loc 50 <;> simp
      constructor
      · intro a ha
        simp only [process_photo, hml, hskip, hdup2, Trace.none] at ha
        simp at ha
      · intro a ha
        simp only [process_photo, hml, hskip, hdup2] at ha
        exact absurd ha (by simp)

/-- Witness for C9: the analysis returned by the successful concrete run has no
`processed_at`. -/
theorem C9_processed_at_never_set_witness : analysisSuccessW.processed_at = none :=
  (C9_processed_at_never_set envSuccess [] 0 0 55 37 false).2 analysisSuccessW rfl

/-- C4: `process_photo` raises `InvalidLocationError` exactly when the latitude
is outside `[-90, 90]` or the longitude outside `[-180, 180]`; on
`InvalidLocationError` no collaborator is called at all and the repository is
unchanged; on `DuplicateLocationError` only the duplicate check touched the
repository — nothing is persisted and neither photo storage nor the classifier
is called. -/
theorem C4_invalid_location_short_circuit (env : Collaborators)
    (repo : List PhotoAnalysis) (freshId now : ℕ) (lat lon : ℚ) (skip : Bool) :
    ((∃ m, (process_photo env repo freshId now lat lon skip).result
        = Except.error (PyErr.invalidLocationError m))
      ↔ ¬ ((-90 ≤ lat ∧ lat ≤ 90) ∧ (-180 ≤ lon ∧ lon ≤ 180)))
    ∧ (¬ ((-90 ≤ lat ∧ lat ≤ 90) ∧ (-180 ≤ lon ∧ lon ≤ 180)) →
        (process_photo env repo freshId now lat lon skip).trace = Trace.none ∧
        (process_photo env repo freshId now lat lon skip).repo = repo)
    ∧ (∀ m, (process_photo env repo freshId now lat lon skip).result
          = Except.error (PyErr.duplicateLocationError m) →
        (process_photo env repo freshId now lat lon skip).trace
            = { Trace.none with dupCheckCalls := 1 } ∧
        (process_photo env repo freshId now lat lon skip).repo = repo) := by
  by_cases hv : (-90 ≤ lat ∧ lat ≤ 90) ∧ (-180 ≤ lon ∧ lon ≤ 180)
  · have hml := mkLocation_of_valid hv
    have hnoinv : ∀ m, (process_photo env repo freshId now lat lon skip).result
        ≠ Except.error (PyErr.invalidLocationError m) := by
      intro m hm
      by_cases hdup : skip = true ∨
          location_already_analyzed repo { latitude := lat, longitude := lon } 50 = false
      · rw [process_photo_pipeline env repo freshId now lat lon skip _ hml hdup] at hm
        rcases runPipeline_spec env repo freshId now
            { latitude := lat, longitude := lon } (if skip then 0 else 1) with
          ⟨a, _, _, _, _, _, _, _, hcase⟩
        rcases hcase with ⟨hres, _, _⟩ | ⟨_, m', _, hres | hres⟩ <;>
          rw [hres] at hm <;> simp at hm
      · push_neg at hdup
        have hskip : skip = false := by
          rcases hdup with ⟨h1, _⟩
          revert h1
          cases skip <;> simp
        have hdup2 : location_already_analyzed repo
            { latitude := lat, longitude := lon } 50 = true := by
          rcases hdup with ⟨_, h2⟩
          revert h2
          cases location_already_analyzed repo { latitude := lat, longitude := lon } 50 <;> simp
        simp only [process_photo, hml, hskip, hdup2] at hm
        simp at hm
    refine ⟨⟨fun ⟨m, hm⟩ => absurd hm (hnoinv m), fun h => absurd hv h⟩,
      fun h => absurd hv h, ?_⟩
    intro m hm
    by_cases hdup : skip = true ∨
        location_already_analyzed repo { latitude := lat, longitude := lon } 50 = false
    · rw [process_photo_pipeline env repo freshId now lat lon skip _ hml hdup] at hm
      rcases runPipeline_spec env repo freshId now
          { latitude := lat, longitude := lon } (if skip then 0 else 1) with
        ⟨a, _, _, _, _, _, _, _, hcase⟩
      rcases hcase with ⟨hres, _, _⟩ | ⟨_, m', _, hres | hres⟩ <;>
        rw [hres] at hm <;> simp at hm
    · push_neg at hdup
      have hskip : skip = false := by
        rcases hdup with ⟨h1, _⟩
        revert h1
        cases skip <;> simp
      have hdup2 : location_already_analyzed repo
          { latitude := lat, longitude := lon } 50 = true := by
        rcases hdup with ⟨_, h2⟩
        revert h2
        cases location_already_analyzed repo { latitude := lat, longitude := lon } 50 <;> simp
      simp only [process_photo, hml, hskip, hdup2]
      exact ⟨rfl, rfl⟩
  · obtain ⟨m0, hml⟩ := mkLocation_of_invalid hv
    refine ⟨⟨fun _ => hv, fun _ => ⟨m0, by simp only [process_photo, hml]⟩⟩,
      fun _ => ⟨by simp only [process_photo, hml], by simp only [process_photo, hml]⟩, ?_⟩
    intro m hm
    simp only [process_photo, hml] at hm
    simp at hm

/-- Witness for C4: `lat = 100` is rejected with no collaborator call and an
unchanged repository. -/
theorem C4_invalid_location_short_circuit_witness :
    (process_photo envSuccess [] 0 0 100 0 false).trace = Trace.none ∧
    (process_photo envSuccess [] 0 0 100 0 false).repo = [] :=
  (C4_invalid_location_short_circuit envSuccess [] 0 0 100 0 false).2.1
    (of_decide_eq_true rfl)

/-- C5: with the duplicate check on, `process_photo` raises
`DuplicateLocationError` iff the repository holds an analysis within the
50-meter threshold of the candidate (an existence-only query leaving the
repository unchanged, with nothing persisted); with `skip_duplicate_check` the
guard is bypassed (no duplicate query), the call succeeds and a second distinct
analysis with the fresh id is appended for the same location. -/
theorem C5_duplicate_guard (env : Collaborators) (repo : List PhotoAnalysis)
    (freshId now : ℕ) (lat lon : ℚ) (loc : Location)
    (hloc : mkLocation lat lon = Except.ok loc) :
    ((∃ m, (process_photo env repo freshId now lat lon false).result
        = Except.error (PyErr.duplicateLocationError m))
      ↔ ∃ x ∈ repo, (Real.sqrt (sqDist x.location loc) * 111000 : ℝ) ≤ ((50 : ℚ) : ℝ))
    ∧ ((∃ x ∈ repo, (Real.sqrt (sqDist x.location loc) * 111000 : ℝ) ≤ ((50 : ℚ) : ℝ)) →
        (process_photo env repo freshId now lat lon false).repo = repo ∧
        (process_photo env repo freshId now lat lon false).trace.saveCalls = [])
    ∧ (∀ url dets, env.savePhotoResult = Except.ok url → env.classifierReady = true →
        env.classifyResult = Except.ok dets →
        ∃ a, (process_photo env repo freshId now lat lon true).result = Except.ok a ∧
          (process_photo env repo freshId now lat lon true).trace.dupCheckCalls = 0 ∧
          a.id = freshId ∧ a.location = loc ∧
          (process_photo env repo freshId now lat lon true).repo = saveAnalysis repo a ∧
          ((∀ x ∈ repo, x.id ≠ freshId) →
            (process_photo env repo freshId now lat lon true).repo = repo ++ [a])) := by
  have hpart3 : ∀ url dets, env.savePhotoResult = Except.ok url →
      env.classifierReady = true → env.classifyResult = Except.ok dets →
      ∃ a, (process_photo env repo freshId now lat lon true).result = Except.ok a ∧
        (process_photo env repo freshId now lat lon true).trace.dupCheckCalls = 0 ∧
        a.id = freshId ∧ a.location = loc ∧
        (process_photo env repo freshId now lat lon true).repo = saveAnalysis repo a ∧
        ((∀ x ∈ repo, x.id ≠ freshId) →
          (process_photo env repo freshId now lat lon true).repo = repo ++ [a]) := by
    intro url dets hs hr hc
    rw [process_photo_pipeline env repo freshId now lat lon true loc hloc (Or.inl rfl)]
    simp only [runPipeline, hs, hr, hc]
    refine ⟨_, by trivial, by trivial, by trivial, by trivial, by trivial, ?_⟩
    intro hfresh
    exact saveAnalysis_fresh repo _ hfresh
  cases hb : location_already_analyzed repo loc 50
  · have hno : ¬ ∃ x ∈ repo,
        (Real.sqrt (sqDist x.location loc) * 111000 : ℝ) ≤ ((50 : ℚ) : ℝ) := by
      intro hx
      rw [(location_already_analyzed_iff repo loc 50).2 hx] at hb
      exact absurd hb (by simp)
    refine ⟨⟨fun ⟨m, hm⟩ => ?_, fun hx => absurd hx hno⟩, fun hx => absurd hx hno, hpart3⟩
    rw [process_photo_pipeline env repo freshId now lat lon false loc hloc (Or.inr hb)] at hm
    rcases runPipeline_spec env repo freshId now loc (if false then 0 else 1) with
      ⟨a, _, _, _, _, _, _, _, hcase⟩
    rcases hcase with ⟨hres, _, _⟩ | ⟨_, m', _, hres | hres⟩ <;>
      rw [hres] at hm <;> simp at hm
  · refine ⟨⟨fun _ => (location_already_analyzed_iff repo loc 50).1 hb, fun _ => ?_⟩,
      fun _ => ⟨by simp [process_photo, hloc, hb],
        by simp [process_photo, hloc, hb, Trace.none]⟩, hpart3⟩
    exact ⟨s!"Location ({lat}, {lon}) was already analyzed",
      by simp [process_photo, hloc, hb]⟩

/-- Witness for C5: a second call at the stored location raises the duplicate
error, and with the check skipped a second analysis with the fresh id 1 is
appended. -/
theorem C5_duplicate_guard_witness :
    (∃ m, (process_photo envSuccess [analysisSuccessW] 1 0 55 37 false).result
        = Except.error (PyErr.duplicateLocationError m)) ∧
    (∃ a, (process_photo envSuccess [analysisSuccessW] 1 0 55 37 true).result = Except.ok a ∧
      a.id = 1 ∧ (process_photo envSuccess [analysisSuccessW] 1 0 55 37 true).repo
        = [analysisSuccessW] ++ [a]) := by
  have h := C5_duplicate_guard envSuccess [analysisSuccessW] 1 0 55 37
    { latitude := 55, longitude := 37 } rfl
  constructor
  · refine h.1.mpr ⟨analysisSuccessW, by simp, ?_⟩
    simp [analysisSuccessW, sqDist_self, Real.sqrt_zero, Rat.cast_nonneg]
  · obtain ⟨a, h1, _, h3, _, _, h6⟩ := h.2.2 "http://photos/0" detsW rfl rfl rfl
    refine ⟨a, h1, h3, h6 ?_⟩
    intro x hx
    obtain rfl := List.mem_singleton.1 hx
    simp [analysisSuccessW]

/-- C6: if the classifier readiness check fails after photo storage succeeded,
`process_photo` raises `MLModelError` itself (not wrapped as
`PhotoProcessingError`) and persists an analysis with status failed and the
non-empty error message recorded. -/
theorem C6_ml_model_error (env : Collaborators) (repo : List PhotoAnalysis)
    (freshId now : ℕ) (lat lon : ℚ) (skip : Bool) (loc : Location) (url : String)
    (hloc : mkLocation lat lon = Except.ok loc)
    (hdup : skip = true ∨ location_already_analyzed repo loc 50 = false)
    (hsave : env.savePhotoResult = Except.ok url)
    (hready : env.classifierReady = false) :
    (process_photo env repo freshId now lat lon skip).result
      = Except.error (PyErr.mlModelError "ML model is not ready")
    ∧ ∃ a, (process_photo env repo freshId now lat lon skip).trace.saveCalls = [a]
        ∧ (process_photo env repo freshId now lat lon skip).repo = saveAnalysis repo a
        ∧ a ∈ (process_photo env repo freshId now lat lon skip).repo
        ∧ a.status = AnalysisStatus.failed
        ∧ a.error_message = some "ML model is not ready"
        ∧ "ML model is not ready" ≠ "" := by
  rw [process_photo_pipeline env repo freshId now lat lon skip loc hloc hdup]
  simp only [runPipeline, hsave, hready]
  exact ⟨by trivial, _, by trivial, by trivial, mem_saveAnalysis repo _, by trivial,
    by trivial, by decide⟩

/-- Witness for C6: a not-ready classifier makes the concrete run raise
`MLModelError`. -/
theorem C6_ml_model_error_witness :
    (process_photo envNotReady [] 0 0 55 37 false).result
      = Except.error (PyErr.mlModelError "ML model is not ready") :=
  (C6_ml_model_error envNotReady [] 0 0 55 37 false
    { latitude := 55, longitude := 37 } "http://photos/3" rfl (Or.inr rfl) rfl rfl).1

/-- C10: `find_nearby_analyses` with out-of-range coordinates raises the
`Location` constructor's plain `ValueError` (not `InvalidLocationError` or any
other domain error) without invoking the repository; with valid coordinates it
returns exactly the repository's `find_by_location` result. -/
theorem C10_find_nearby (repo : List PhotoAnalysis) (lat lon radius : ℚ) :
    (¬ ((-90 ≤ lat ∧ lat ≤ 90) ∧ (-180 ≤ lon ∧ lon ≤ 180)) →
      ∃ m, find_nearby_analyses repo lat lon radius
        = (Except.error (PyErr.valueError m), 0))
    ∧ (∀ loc, mkLocation lat lon = Except.ok loc →
      find_nearby_analyses repo lat lon radius
        = (Except.ok (find_by_location repo loc radius), 1)) := by
  constructor
  · intro hv
    obtain ⟨m, hml⟩ := mkLocation_of_invalid hv
    exact ⟨m, by simp only [find_nearby_analyses, hml]⟩
  · intro loc hml
    simp only [find_nearby_analyses, hml]

/-- Witness for C10: `lat = 100` yields the plain `ValueError` and zero
repository calls. -/
theorem C10_find_nearby_witness :
    ∃ m, find_nearby_analyses [] 100 0 5 = (Except.error (PyErr.valueError m), 0) :=
  (C10_find_nearby [] 100 0 5).1 (of_decide_eq_true rfl)

/-- C1 (amended): the detection list stored on the analysis by a successful
`process_photo` is exactly the classifier's raw output, unchanged — no
per-category collapse and no confidence sorting; an empty classifier output is
stored as an empty list. -/
theorem C1_detections_stored_verbatim (env : Collaborators)
    (repo : List PhotoAnalysis) (freshId now : ℕ) (lat lon : ℚ) (skip : Bool)
    (loc : Location) (url : String) (dets : List WasteDetection)
    (hloc : mkLocation lat lon = Except.ok loc)
    (hdup : skip = true ∨ location_already_analyzed repo loc 50 = false)
    (hsave : env.savePhotoResult = Except.ok url)
    (hready : env.classifierReady = true)
    (hclassify : env.classifyResult = Except.ok dets) :
    ∃ a, (process_photo env repo freshId now lat lon skip).result = Except.ok a ∧
      a.detections = dets := by
  rw [process_photo_pipeline env repo freshId now lat lon skip loc hloc hdup]
  simp only [runPipeline, hsave, hready, hclassify]
  exact ⟨_, by trivial, by trivial⟩

/-- Counterexample for C1: on the spec's own example input
`[{plastic,0.3},{plastic,0.9},{metal,0.5}]` the stored list is the raw
three-element list itself, with two plastic detections — not collapsed to at
most one detection per category and not resorted. -/
theorem C1_counterexample :
    (process_photo envC1 [] 0 0 55 37 false).result = Except.ok analysisC1 ∧
    analysisC1.detections = rawDetectionsC1 ∧
    (rawDetectionsC1.filter fun d => d.waste_type == WasteType.plastic).length = 2 :=
  ⟨rfl, rfl, rfl⟩

/-- Witness for C1 (amended): the concrete run stores the raw list verbatim. -/
theorem C1_detections_stored_verbatim_witness :
    ∃ a, (process_photo envC1 [] 1 0 55 37 false).result = Except.ok a ∧
      a.detections = rawDetectionsC1 :=
  C1_detections_stored_verbatim envC1 [] 1 0 55 37 false
    { latitude := 55, longitude := 37 } "http://photos/1" rawDetectionsC1
    rfl (Or.inr rfl) rfl rfl rfl

/-- C2 (amended): when `process_photo` completes successfully the analysis's
detection list is the classifier's returned list, so it is non-empty exactly
when the classifier returned a non-empty list; the `{unknown, 0.0, none}`
sentinel for an empty classification is a classifier-adapter policy, not
enforced by the orchestration service. -/
theorem C2_completed_nonempty_iff_classifier (env : Collaborators)
    (repo : List PhotoAnalysis) (freshId now : ℕ) (lat lon : ℚ) (skip : Bool)
    (loc : Location) (url : String) (dets : List WasteDetection)
    (hloc : mkLocation lat lon = Except.ok loc)
    (hdup : skip = true ∨ location_already_analyzed repo loc 50 = false)
    (hsave : env.savePhotoResult = Except.ok url)
    (hready : env.classifierReady = true)
    (hclassify : env.classifyResult = Except.ok dets) :
    ∃ a, (process_photo env repo freshId now lat lon skip).result = Except.ok a ∧
      a.status = AnalysisStatus.completed ∧ (a.detections ≠ [] ↔ dets ≠ []) := by
  rw [process_photo_pipeline env repo freshId now lat lon skip loc hloc hdup]
  simp only [runPipeline, hsave, hready, hclassify]
  exact ⟨_, by trivial, by trivial, Iff.rfl⟩

/-- Counterexample for C2: a classifier returning the empty list yields a
successfully completed analysis whose detection list is empty — no sentinel is
synthesized by `process_photo`. -/
theorem C2_counterexample :
    (process_photo envC2 [] 0 0 55 37 false).result = Except.ok analysisC2 ∧
    analysisC2.status = AnalysisStatus.completed ∧
    analysisC2.detections = [] :=
  ⟨rfl, rfl, rfl⟩

/-- Witness for C2 (amended): the concrete successful run with a non-empty
classifier output. -/
theorem C2_completed_nonempty_iff_classifier_witness :
    ∃ a, (process_photo envSuccess [] 2 0 55 37 false).result = Except.ok a ∧
      a.status = AnalysisStatus.completed ∧ (a.detections ≠ [] ↔ detsW ≠ []) :=
  C2_completed_nonempty_iff_classifier envSuccess [] 2 0 55 37 false
    { latitude := 55, longitude := 37 } "http://photos/0" detsW
    rfl (Or.inr rfl) rfl rfl rfl

/-- Witness for C8: the empty detection list gives `unknown`. -/
theorem C8_dominant_category_witness :
    analysisEmptyW.get_dominant_waste_type = WasteType.unknown :=
  (C8_dominant_category analysisEmptyW).1 rfl

end SatWave
